import Mathlib

/-!
Verification of `script_dados_bovespa.py`, a single-script pipeline that
fetches historical Bovespa index data through an external provider
(`yfinance`), writes it to a timestamped CSV file and logs progress.

The script is embedded shallowly:

* the external provider call `yf.Ticker(TICKER).history(period=period)` is a
  parameter of type `Provider` — it may return a table or raise an exception;
* logging and the provider contact are recorded in an ordered event trace;
* the filesystem is an explicit association list from paths to file lines;
* exceptions are modelled with `Except Exn`, and the Python `try/except`
  of `fetch_bovespa_data` is an explicit handler combinator.
-/

namespace Bovespa

/-- Python logging levels used by the script. -/
inductive Level where
  | INFO
  | WARNING
  | ERROR
deriving DecidableEq, Repr

/-- One line appended to the log file: a level and a message. -/
structure LogEntry where
  level : Level
  msg : String
deriving DecidableEq, Repr

/-- Observable events of a run, in order: log lines and the moment the
external provider is contacted (`ticker.history(period=period)`). -/
inductive Event where
  | log : LogEntry → Event
  | providerCall : String → Event
deriving DecidableEq, Repr

/-- One row of the price series: a timestamp index value and the numeric
fields (open, high, low, close, volume, provider adjustments). -/
structure Row where
  ts : Nat
  vals : List Int
deriving DecidableEq, Repr

/-- A pandas `DataFrame` as the script uses it: an index name, column
labels, and timestamp-indexed rows. -/
structure Table where
  indexName : String
  cols : List String
  rows : List Row
deriving DecidableEq, Repr

/-- `DataFrame.empty`: true when one of the axes has length zero. -/
def Table.empty (t : Table) : Bool :=
  t.rows.isEmpty || t.cols.isEmpty

/-- `pd.DataFrame()`: the fresh empty frame returned on the degraded paths. -/
def emptyFrame : Table :=
  { indexName := "", cols := [], rows := [] }

/-- A Python exception, carrying the text `str(e)`. -/
structure Exn where
  msg : String
deriving DecidableEq, Repr

/-- `str(e)` on an exception. -/
def pyStr (e : Exn) : String := e.msg

/-- The behaviour of the external provider for a given period string:
either a table or a raised exception. This stands for everything inside
`yf.Ticker(TICKER)` / `ticker.history(period=period)`. -/
def Provider := String → Except Exn Table

/-- `TICKER = "^BVSP"`. -/
def TICKER : String := "^BVSP"

/-- The INFO message logged at the start of `fetch_bovespa_data`. -/
def startMsg (period : String) : String :=
  "Iniciando coleta de dados para " ++ TICKER ++ " (período: " ++ period ++ ")"

/-- The INFO message logged on a successful non-empty fetch. -/
def successMsg : String := "Dados coletados com sucesso."

/-- The WARNING message logged when the provider returns an empty table. -/
def emptyWarnMsg : String := "Nenhum dado foi retornado pela API."

/-- The ERROR message logged when the provider raises. -/
def errMsg (e : Exn) : String := "Erro na coleta de dados: " ++ pyStr e

/-- The body of the `try` block of `fetch_bovespa_data`: log the start
line, contact the provider, and either propagate its exception or branch
on emptiness as the source does. The second component is the event trace
produced so far (log lines persist even when an exception propagates). -/
def fetch_try (provider : Provider) (period : String) :
    Except Exn Table × List Event :=
  let ev0 : List Event :=
    [Event.log ⟨Level.INFO, startMsg period⟩, Event.providerCall period]
  match provider period with
  | Except.error e => (Except.error e, ev0)
  | Except.ok data =>
      if data.empty then
        (Except.ok emptyFrame, ev0 ++ [Event.log ⟨Level.WARNING, emptyWarnMsg⟩])
      else
        (Except.ok data, ev0 ++ [Event.log ⟨Level.INFO, successMsg⟩])

/-- Python `try ... except Exception as e: handler`: if the body raised,
run the handler on the exception; events of the body persist either way. -/
def pyTryExcept (body : Except Exn Table × List Event)
    (handler : Exn → Except Exn Table × List Event) :
    Except Exn Table × List Event :=
  match body with
  | (Except.ok t, evs) => (Except.ok t, evs)
  | (Except.error e, evs) =>
      let h := handler e
      (h.1, evs ++ h.2)

/-- `fetch_bovespa_data(period)`: the `try` body wrapped in the catch-all
handler that logs the ERROR line and returns `pd.DataFrame()`. -/
def fetch_bovespa_data (provider : Provider) (period : String) :
    Except Exn Table × List Event :=
  pyTryExcept (fetch_try provider period)
    (fun e => (Except.ok emptyFrame, [Event.log ⟨Level.ERROR, errMsg e⟩]))

/-- The log lines of an event trace (what ends up in `bovespa_data.log`). -/
def logsOf (evs : List Event) : List LogEntry :=
  evs.filterMap (fun ev =>
    match ev with
    | Event.log l => some l
    | Event.providerCall _ => none)

/-- The ERROR lines of an event trace. -/
def errorLines (evs : List Event) : List LogEntry :=
  (logsOf evs).filter (fun l => decide (l.level = Level.ERROR))

/-- A wall-clock instant at second precision, as `datetime.now()` is used
by `save_data` (`strftime` keeps nothing finer than the second). -/
structure DateTime where
  year : Nat
  month : Nat
  day : Nat
  hour : Nat
  minute : Nat
  second : Nat
deriving DecidableEq, Repr

/-- Zero-padded two-digit field, as `%m %d %H %M %S` render. -/
def pad2 (n : Nat) : String :=
  if n < 10 then "0" ++ toString n else toString n

/-- Zero-padded four-digit year, as `%Y` renders. -/
def pad4 (n : Nat) : String :=
  if n < 10 then "000" ++ toString n
  else if n < 100 then "00" ++ toString n
  else if n < 1000 then "0" ++ toString n
  else toString n

/-- `datetime.now().strftime("%Y%m%d_%H%M%S")`. -/
def strftime_stamp (d : DateTime) : String :=
  pad4 d.year ++ pad2 d.month ++ pad2 d.day ++ "_"
    ++ pad2 d.hour ++ pad2 d.minute ++ pad2 d.second

/-- One CSV data line: the timestamp index value then the numeric fields,
comma-separated, as `DataFrame.to_csv(..., index=True)` writes a row. -/
def renderRow (r : Row) : String :=
  toString r.ts ++ String.join (r.vals.map (fun v => "," ++ toString v))

/-- The CSV header line: the index label then the column labels. -/
def headerLine (t : Table) : String :=
  t.indexName ++ String.join (t.cols.map (fun c => "," ++ c))

/-- `DataFrame.to_csv(..., index=True)` as a list of lines: one header
line followed by one line per row. -/
def to_csv (t : Table) : List String :=
  headerLine t :: t.rows.map renderRow

/-- The filesystem's regular files: path names mapped to file lines. -/
abbrev FS := List (String × List String)

/-- Writing a file: replace the content at the path, or create the file. -/
def fsWrite : FS → String → List String → FS
  | [], p, c => [(p, c)]
  | (q, d) :: rest, p, c =>
      if q = p then (p, c) :: rest else (q, d) :: fsWrite rest p c

/-- Reading a file's lines, `none` when the path does not exist. -/
def fsRead (fs : FS) (p : String) : Option (List String) :=
  match fs with
  | [] => none
  | (q, d) :: rest => if q = p then some d else fsRead rest p

/-- The output path `DATA_DIR / f"bovespa_{timestamp}.csv"` for a given
wall-clock instant. -/
def save_filename (now : DateTime) : String :=
  "data/bovespa_" ++ strftime_stamp now ++ ".csv"

/-- `save_data(data)`: write the CSV to the timestamped path and log the
INFO confirmation line. `now` is the `datetime.now()` reading. -/
def save_data (data : Table) (now : DateTime) (fs : FS) : FS × List Event :=
  let filename := save_filename now
  (fsWrite fs filename (to_csv data),
   [Event.log ⟨Level.INFO, "Dados salvos em " ++ filename⟩])

/-- Rows are in strictly ascending timestamp order. -/
def ascendingTsB : List Row → Bool
  | [] => true
  | [_] => true
  | a :: b :: rest => decide (a.ts < b.ts) && ascendingTsB (b :: rest)

/-- `Path(p).mkdir(exist_ok=True)`: no-op on an existing directory,
`FileExistsError` when the path exists as a regular file, otherwise the
directory is created. -/
def mkdir_exist_ok (dirs files : List String) (p : String) :
    Except Exn (List String) :=
  if p ∈ dirs then Except.ok dirs
  else if p ∈ files then Except.error ⟨"FileExistsError: " ++ p⟩
  else Except.ok (dirs ++ [p])

/-- `setup_directories()`: create `data` then `logs`, propagating any
filesystem error uncaught. `dirs` and `files` are the existing directory
and file names. -/
def setup_directories (dirs files : List String) :
    Except Exn (List String) :=
  match mkdir_exist_ok dirs files "data" with
  | Except.error e => Except.error e
  | Except.ok d1 => mkdir_exist_ok d1 files "logs"

/-- The whole observable state a run touches: directories, regular files,
the event trace (log lines and provider contact) and standard output. -/
structure World where
  dirs : List String
  files : FS
  events : List Event
  stdout : List String
deriving Repr

/-- The names of the existing regular files. -/
def fileNames (fs : FS) : List String := fs.map Prod.fst

/-- A rendering of `bovespa_data.head()`: the first five rows. -/
def headRepr (t : Table) : String :=
  String.intercalate "; " (to_csv { t with rows := t.rows.take 5 })

/-- The message printed when the fetched table is empty. -/
def failureMsg : String := "Falha na coleta de dados. Verifique os logs."

/-- The `if __name__ == "__main__"` pipeline: set up directories
(errors propagate), configure logging, fetch with period `1mo`, then
either print the head and save, or print the failure message. -/
def main_run (provider : Provider) (now : DateTime) (w : World) :
    Except Exn World :=
  match setup_directories w.dirs (fileNames w.files) with
  | Except.error e => Except.error e
  | Except.ok dirs1 =>
      match fetch_bovespa_data provider "1mo" with
      | (Except.error e, _) => Except.error e
      | (Except.ok bovespa_data, evs) =>
          let w1 : World := { w with dirs := dirs1, events := w.events ++ evs }
          if !bovespa_data.empty then
            let printed := ["Primeiras linhas dos dados:", headRepr bovespa_data]
            let s := save_data bovespa_data now w1.files
            Except.ok { w1 with
              stdout := w1.stdout ++ printed
              files := s.1
              events := w1.events ++ s.2 }
          else
            Except.ok { w1 with stdout := w1.stdout ++ [failureMsg] }

/-- A concrete provider that always raises, for witnesses. -/
def provExn : Provider := fun _ => Except.error ⟨"boom"⟩

/-- A concrete one-row table, for witnesses. -/
def sampleTable : Table :=
  { indexName := "Date", cols := ["Open", "Close"], rows := [⟨1, [10, 11]⟩] }

/-- A concrete provider returning `sampleTable`, for witnesses. -/
def provOk : Provider := fun _ => Except.ok sampleTable

/-- A concrete provider returning an empty table, for witnesses. -/
def provEmpty : Provider := fun _ => Except.ok emptyFrame

end Bovespa

namespace Bovespa

/-- C1 helper: the result of `fetch_bovespa_data` when the provider raises. -/
theorem fetch_eq_of_error (provider : Provider) (period : String) (e : Exn)
    (h : provider period = Except.error e) :
    fetch_bovespa_data provider period =
      (Except.ok emptyFrame,
       [Event.log ⟨Level.INFO, startMsg period⟩, Event.providerCall period,
        Event.log ⟨Level.ERROR, errMsg e⟩]) := by
  simp [fetch_bovespa_data, fetch_try, pyTryExcept, h]

/-- C1 helper: the result when the provider returns an empty table. -/
theorem fetch_eq_of_ok_empty (provider : Provider) (period : String) (t : Table)
    (h : provider period = Except.ok t) (he : t.empty = true) :
    fetch_bovespa_data provider period =
      (Except.ok emptyFrame,
       [Event.log ⟨Level.INFO, startMsg period⟩, Event.providerCall period,
        Event.log ⟨Level.WARNING, emptyWarnMsg⟩]) := by
  simp [fetch_bovespa_data, fetch_try, pyTryExcept, h, he]

/-- C1 helper: the result when the provider returns a non-empty table. -/
theorem fetch_eq_of_ok_nonempty (provider : Provider) (period : String) (t : Table)
    (h : provider period = Except.ok t) (he : t.empty = false) :
    fetch_bovespa_data provider period =
      (Except.ok t,
       [Event.log ⟨Level.INFO, startMsg period⟩, Event.providerCall period,
        Event.log ⟨Level.INFO, successMsg⟩]) := by
  simp [fetch_bovespa_data, fetch_try, pyTryExcept, h, he]

/-- C1: for every period string and every behaviour of the external
provider (any table, an empty table, or any raised exception),
`fetch_bovespa_data` returns a table — possibly empty — and never lets an
exception escape to its caller. -/
theorem fetch_never_raises (provider : Provider) (period : String) :
    ∃ t : Table, (fetch_bovespa_data provider period).1 = Except.ok t := by
  cases h : provider period with
  | error e =>
      exact ⟨emptyFrame, by rw [fetch_eq_of_error provider period e h]⟩
  | ok data =>
      cases he : data.empty with
      | true =>
          exact ⟨emptyFrame, by rw [fetch_eq_of_ok_empty provider period data h he]⟩
      | false =>
          exact ⟨data, by rw [fetch_eq_of_ok_nonempty provider period data h he]⟩

/-- C2: when the provider raises, `fetch_bovespa_data` returns the empty
table and the trace carries exactly one ERROR line, whose text contains
the raised exception's message `str(e)`. -/
theorem fetch_error_logs_once (provider : Provider) (period m : String)
    (h : provider period = Except.error ⟨m⟩) :
    (fetch_bovespa_data provider period).1 = Except.ok emptyFrame
    ∧ errorLines (fetch_bovespa_data provider period).2
        = [⟨Level.ERROR, errMsg ⟨m⟩⟩]
    ∧ ∃ pre post, errMsg ⟨m⟩ = pre ++ m ++ post := by
  rw [fetch_eq_of_error provider period ⟨m⟩ h]
  refine ⟨rfl, ?_, "Erro na coleta de dados: ", "", ?_⟩
  · simp [errorLines, logsOf]
  · simp [errMsg, pyStr]

/-- C2 witness at the always-raising provider and period `1mo`. -/
theorem fetch_error_logs_once_witness :
    (fetch_bovespa_data provExn "1mo").1 = Except.ok emptyFrame
    ∧ errorLines (fetch_bovespa_data provExn "1mo").2
        = [⟨Level.ERROR, errMsg ⟨"boom"⟩⟩]
    ∧ ∃ pre post, errMsg ⟨"boom"⟩ = pre ++ "boom" ++ post :=
  fetch_error_logs_once provExn "1mo" "boom" rfl

/-- C3: when the provider returns a non-empty table, `fetch_bovespa_data`
returns exactly that table and the full event trace is the start line, the
provider contact, and one INFO success line. -/
theorem fetch_ok_returns_table (provider : Provider) (period : String) (t : Table)
    (h : provider period = Except.ok t) (he : t.empty = false) :
    (fetch_bovespa_data provider period).1 = Except.ok t
    ∧ (fetch_bovespa_data provider period).2
        = [Event.log ⟨Level.INFO, startMsg period⟩, Event.providerCall period,
           Event.log ⟨Level.INFO, successMsg⟩] := by
  rw [fetch_eq_of_ok_nonempty provider period t h he]
  exact ⟨rfl, rfl⟩

/-- C3 witness at a provider returning a concrete non-empty table. -/
theorem fetch_ok_returns_table_witness :
    (fetch_bovespa_data provOk "1mo").1 = Except.ok sampleTable
    ∧ (fetch_bovespa_data provOk "1mo").2
        = [Event.log ⟨Level.INFO, startMsg "1mo"⟩, Event.providerCall "1mo",
           Event.log ⟨Level.INFO, successMsg⟩] :=
  fetch_ok_returns_table provOk "1mo" sampleTable rfl (by decide)

/-- C7: a run whose provider returns an empty table and a run whose
provider raises produce identical return values — the same empty table —
so the caller cannot tell the two causes apart from the value. -/
theorem fetch_empty_and_error_indistinguishable
    (pA pB : Provider) (period : String) (tA : Table) (m : String)
    (hA : pA period = Except.ok tA) (hAe : tA.empty = true)
    (hB : pB period = Except.error ⟨m⟩) :
    (fetch_bovespa_data pA period).1 = (fetch_bovespa_data pB period).1
    ∧ (fetch_bovespa_data pA period).1 = Except.ok emptyFrame := by
  rw [fetch_eq_of_ok_empty pA period tA hA hAe,
      fetch_eq_of_error pB period ⟨m⟩ hB]
  exact ⟨rfl, rfl⟩

/-- C7 witness: the empty-table provider and the raising provider yield the
same value from `fetch_bovespa_data`. -/
theorem fetch_empty_and_error_indistinguishable_witness :
    (fetch_bovespa_data provEmpty "1mo").1 = (fetch_bovespa_data provExn "1mo").1
    ∧ (fetch_bovespa_data provEmpty "1mo").1 = Except.ok emptyFrame :=
  fetch_empty_and_error_indistinguishable provEmpty provExn "1mo" emptyFrame
    "boom" rfl (by decide) rfl

/-- The start message is never the success message: their lengths differ
for every period string. -/
theorem startMsg_ne_successMsg (period : String) : startMsg period ≠ successMsg := by
  intro h
  have hlen := congrArg String.length h
  rw [startMsg, successMsg, TICKER] at hlen
  simp only [String.length_append] at hlen
  have h1 : ("Iniciando coleta de dados para ").length = 31 := rfl
  have h2 : ("^BVSP").length = 5 := rfl
  have h3 : (" (período: ").length = 11 := rfl
  have h4 : (")").length = 1 := rfl
  have h5 : ("Dados coletados com sucesso.").length = 28 := rfl
  omega

/-- C10: every call to `fetch_bovespa_data`, whatever the outcome, logs the
INFO start line naming the ticker and the period as its very first event,
before the provider is contacted, and that line occurs nowhere else in the
trace. -/
theorem fetch_start_line_first (provider : Provider) (period : String) :
    ∃ rest,
      (fetch_bovespa_data provider period).2
        = Event.log ⟨Level.INFO, startMsg period⟩
            :: Event.providerCall period :: rest
      ∧ Event.log ⟨Level.INFO, startMsg period⟩ ∉ rest
      ∧ ∃ a b c, startMsg period = a ++ TICKER ++ b ++ period ++ c := by
  have hparts : ∃ a b c, startMsg period = a ++ TICKER ++ b ++ period ++ c :=
    ⟨"Iniciando coleta de dados para ", " (período: ", ")", by
      simp [startMsg, String.append_assoc]⟩
  cases h : provider period with
  | error e =>
      refine ⟨[Event.log ⟨Level.ERROR, errMsg e⟩], ?_, ?_, hparts⟩
      · rw [fetch_eq_of_error provider period e h]
      · simp
  | ok data =>
      cases he : data.empty with
      | true =>
          refine ⟨[Event.log ⟨Level.WARNING, emptyWarnMsg⟩], ?_, ?_, hparts⟩
          · rw [fetch_eq_of_ok_empty provider period data h he]
          · simp
      | false =>
          refine ⟨[Event.log ⟨Level.INFO, successMsg⟩], ?_, ?_, hparts⟩
          · rw [fetch_eq_of_ok_nonempty provider period data h he]
          · simp [startMsg_ne_successMsg period]

/-- Reading back a freshly written path yields the written lines. -/
theorem fsRead_fsWrite (fs : FS) (p : String) (c : List String) :
    fsRead (fsWrite fs p c) p = some c := by
  induction fs with
  | nil => simp [fsWrite, fsRead]
  | cons hd tl ih =>
      obtain ⟨q, d⟩ := hd
      by_cases hq : q = p
      · simp [fsWrite, fsRead, hq]
      · simp [fsWrite, fsRead, hq, ih]

/-- C4: `save_data` on a table with N rows writes, at the path
`data/bovespa_<YYYYMMDD_HHMMSS>.csv` derived from the wall-clock instant,
a file of N+1 lines (header plus one line per row), and its trace is
exactly one INFO line containing that output path. -/
theorem save_data_writes_file (t : Table) (now : DateTime) (fs : FS) :
    save_filename now = "data/bovespa_" ++ strftime_stamp now ++ ".csv"
    ∧ fsRead (save_data t now fs).1 (save_filename now) = some (to_csv t)
    ∧ (to_csv t).length = t.rows.length + 1
    ∧ (save_data t now fs).2
        = [Event.log ⟨Level.INFO, "Dados salvos em " ++ save_filename now⟩]
    ∧ ∃ pre post, "Dados salvos em " ++ save_filename now
        = pre ++ save_filename now ++ post := by
  refine ⟨rfl, ?_, ?_, rfl, "Dados salvos em ", "", by simp⟩
  · exact fsRead_fsWrite fs (save_filename now) (to_csv t)
  · simp [to_csv]

/-- C9: `save_data` accepts an empty table without error and writes a
header-only file: one header line and no data rows. -/
theorem save_data_empty_table (t : Table) (now : DateTime) (fs : FS)
    (h : t.rows = []) :
    fsRead (save_data t now fs).1 (save_filename now) = some [headerLine t]
    ∧ (to_csv t).length = 1 := by
  have hcsv : to_csv t = [headerLine t] := by simp [to_csv, h]
  constructor
  · rw [← hcsv]
    exact fsRead_fsWrite fs (save_filename now) (to_csv t)
  · simp [hcsv]

/-- C9 witness: `save_data` on `pd.DataFrame()` over an empty filesystem. -/
theorem save_data_empty_table_witness :
    fsRead (save_data emptyFrame ⟨2024, 5, 20, 12, 0, 0⟩ []).1
        (save_filename ⟨2024, 5, 20, 12, 0, 0⟩)
      = some [headerLine emptyFrame]
    ∧ (to_csv emptyFrame).length = 1 :=
  save_data_empty_table emptyFrame ⟨2024, 5, 20, 12, 0, 0⟩ [] rfl

/-- C6: over a provider whose tables are ascending by timestamp (the
documented behaviour of the external history lookup), `fetch_bovespa_data`
returns a table whose rows are ascending — possibly the empty table — and
the result is never partial: it is the empty frame or exactly the
provider's table. -/
theorem fetch_rows_sorted_or_empty (provider : Provider) (period : String)
    (hp : ∀ per t, provider per = Except.ok t → ascendingTsB t.rows = true) :
    ∃ t, (fetch_bovespa_data provider period).1 = Except.ok t
      ∧ ascendingTsB t.rows = true
      ∧ (t = emptyFrame ∨ provider period = Except.ok t) := by
  cases h : provider period with
  | error e =>
      exact ⟨emptyFrame,
        by rw [fetch_eq_of_error provider period e h], rfl, Or.inl rfl⟩
  | ok data =>
      cases he : data.empty with
      | true =>
          exact ⟨emptyFrame,
            by rw [fetch_eq_of_ok_empty provider period data h he], rfl,
            Or.inl rfl⟩
      | false =>
          exact ⟨data,
            by rw [fetch_eq_of_ok_nonempty provider period data h he],
            hp period data h, Or.inr rfl⟩

/-- C6 witness at the provider returning the one-row sample table. -/
theorem fetch_rows_sorted_or_empty_witness :
    ∃ t, (fetch_bovespa_data provOk "1mo").1 = Except.ok t
      ∧ ascendingTsB t.rows = true
      ∧ (t = emptyFrame ∨ provOk "1mo" = Except.ok t) :=
  fetch_rows_sorted_or_empty provOk "1mo"
    (by intro per t h; cases h; decide)

/-- Creating an already-existing directory is a no-op. -/
theorem mkdir_exist_ok_of_mem (dirs files : List String) (p : String)
    (h : p ∈ dirs) : mkdir_exist_ok dirs files p = Except.ok dirs := by
  simp [mkdir_exist_ok, h]

/-- A successful `mkdir` leaves the given path present and keeps every
directory that already existed. -/
theorem mem_of_mkdir_exist_ok (dirs files d : List String) (p : String)
    (h : mkdir_exist_ok dirs files p = Except.ok d) :
    p ∈ d ∧ ∀ q ∈ dirs, q ∈ d := by
  by_cases hd : p ∈ dirs
  · rw [mkdir_exist_ok_of_mem dirs files p hd] at h
    cases h
    exact ⟨hd, fun q hq => hq⟩
  · by_cases hf : p ∈ files
    · simp [mkdir_exist_ok, hd, hf] at h
    · simp [mkdir_exist_ok, hd, hf] at h
      subst h
      exact ⟨by simp, fun q hq => by simp [hq]⟩

/-- C8: running `setup_directories` right after a successful run raises no
error and leaves the directories exactly as the first run left them. -/
theorem setup_directories_idempotent (dirs files d1 : List String)
    (h : setup_directories dirs files = Except.ok d1) :
    setup_directories d1 files = Except.ok d1 := by
  unfold setup_directories at h
  cases hm : mkdir_exist_ok dirs files "data" with
  | error e => rw [hm] at h; cases h
  | ok dmid =>
      rw [hm] at h
      obtain ⟨hdata, _⟩ := mem_of_mkdir_exist_ok dirs files dmid "data" hm
      obtain ⟨hlogs, hmono⟩ := mem_of_mkdir_exist_ok dmid files d1 "logs" h
      have hdata1 : "data" ∈ d1 := hmono _ hdata
      unfold setup_directories
      rw [mkdir_exist_ok_of_mem d1 files "data" hdata1]
      exact mkdir_exist_ok_of_mem d1 files "logs" hlogs

/-- C8 witness: starting from no directories and no files. -/
theorem setup_directories_idempotent_witness :
    setup_directories ["data", "logs"] [] = Except.ok ["data", "logs"] :=
  setup_directories_idempotent [] [] ["data", "logs"] rfl

/-- C5: when the provider raises, a full pipeline run succeeds without
touching the regular files (so no new file appears under `data/`), appends
a trace whose only ERROR line carries the exception text, and prints
exactly the failure message — no data rows — to standard output. -/
theorem main_error_no_file (provider : Provider) (now : DateTime) (w : World)
    (m : String) (d1 : List String)
    (hp : provider "1mo" = Except.error ⟨m⟩)
    (hs : setup_directories w.dirs (fileNames w.files) = Except.ok d1) :
    ∃ w' : World, main_run provider now w = Except.ok w'
      ∧ w'.files = w.files
      ∧ (∃ evs, w'.events = w.events ++ evs
          ∧ errorLines evs = [⟨Level.ERROR, errMsg ⟨m⟩⟩]
          ∧ ∃ pre post, errMsg ⟨m⟩ = pre ++ m ++ post)
      ∧ w'.stdout = w.stdout ++ [failureMsg] := by
  have hf := fetch_eq_of_error provider "1mo" ⟨m⟩ hp
  refine ⟨{ w with
      dirs := d1
      events := w.events ++
        [Event.log ⟨Level.INFO, startMsg "1mo"⟩, Event.providerCall "1mo",
         Event.log ⟨Level.ERROR, errMsg ⟨m⟩⟩]
      stdout := w.stdout ++ [failureMsg] }, ?_, rfl, ?_, rfl⟩
  · unfold main_run
    rw [hs, hf]
    simp [emptyFrame, Table.empty]
  · refine ⟨_, rfl, ?_, "Erro na coleta de dados: ", "", ?_⟩
    · simp [errorLines, logsOf]
    · simp [errMsg, pyStr]

/-- C5 witness: the raising provider over the empty world. -/
theorem main_error_no_file_witness :
    ∃ w' : World,
      main_run provExn ⟨2024, 5, 20, 12, 0, 0⟩ ⟨[], [], [], []⟩ = Except.ok w'
      ∧ w'.files = ([] : FS)
      ∧ (∃ evs, w'.events = [] ++ evs
          ∧ errorLines evs = [⟨Level.ERROR, errMsg ⟨"boom"⟩⟩]
          ∧ ∃ pre post, errMsg ⟨"boom"⟩ = pre ++ "boom" ++ post)
      ∧ w'.stdout = [] ++ [failureMsg] :=
  main_error_no_file provExn ⟨2024, 5, 20, 12, 0, 0⟩ ⟨[], [], [], []⟩
    "boom" ["data", "logs"] rfl rfl

end Bovespa
